import Mathlib

/-!
Shallow embedding of the Dodo Payments + Supabase boilerplate core:
the record store (customers, subscriptions, payments, webhook_events),
the signup / subscribe flows, and the webhook reconciliation logic.

The embedding follows the TypeScript sources:
  src/config.ts            (createCheckoutUrl)
  src/lib/supabase.ts      (store gateway operations)
  src/modules/customer.ts  (createCustomerFlow)
  src/modules/subscription.ts (createSubscriptionFlow, handleSubscriptionWebhook)
  src/modules/webhook.ts   (processWebhook, handleSubscriptionEvent)
  supabase edge function   (handlePaymentEvent)
  src/server.ts            (error-message to HTTP-status mapping)

Store-assigned ids are modelled as naturals drawn from a `nextId` counter;
timestamps (`created_at`, `updated_at`, `Date.now()`) are naturals passed in
as an explicit `now` parameter.  JavaScript truthiness on strings and numbers
(`x || d`) is modelled explicitly: the empty string and the number 0 are falsy.
-/

namespace DodoSupabase

/-- JavaScript truthiness of an optional string: `undefined`/`null` and the
empty string are falsy. -/
def jsTruthyStr : Option String → Bool
  | none => false
  | some s => !(s == "")

/-- JavaScript `o || d` for an optional string: substitutes `d` when `o` is
absent or the empty string. -/
def jsOrStr (o : Option String) (d : String) : String :=
  match o with
  | none => d
  | some s => if s == "" then d else s

/-- JavaScript `o || d` for an optional number: substitutes `d` when `o` is
absent or `0`. -/
def jsOrInt (o : Option Int) (d : Int) : Int :=
  match o with
  | none => d
  | some n => if n == 0 then d else n

/-- SQL `LIKE 'temp_%'` on `dodo_subscription_id`: four literal characters
`temp`, then the single-character wildcard `_`, then any tail. -/
def matchesTempLike (s : String) : Bool :=
  match s.data with
  | 't' :: 'e' :: 'm' :: 'p' :: _ :: _ => true
  | _ => false

/-- List-level substring occurrence, used to model JavaScript
`String.prototype.includes` in the server error mapping. -/
def occursIn [DecidableEq α] (pat : List α) : List α → Bool
  | [] => pat.isEmpty
  | a :: rest => (pat.isPrefixOf (a :: rest)) || occursIn pat rest

/-- Models `errorMessage.includes(pat)` from src/server.ts. -/
def strContains (s pat : String) : Bool :=
  occursIn pat.data s.data

/-! ## Data model (supabase/migrations/001_initial_schema.sql) -/

/-- A row of the `customers` table. -/
structure Customer where
  id : Nat
  email : String
  name : String
  dodo_customer_id : String
  deriving Repr, DecidableEq

/-- A row of the `subscriptions` table. -/
structure Subscription where
  id : Nat
  customer_id : Nat
  dodo_subscription_id : String
  product_id : String
  status : String
  billing_interval : String
  amount : Int
  currency : String
  next_billing_date : Option String
  created_at : Nat
  updated_at : Nat
  deriving Repr, DecidableEq

/-- A row of the `payments` table. -/
structure Payment where
  id : Nat
  customer_id : Nat
  dodo_payment_id : String
  amount : Int
  currency : String
  status : String
  payment_method : Option String
  deriving Repr, DecidableEq

/-- The customer object carried inside a webhook `data` payload. -/
structure WebhookCustomer where
  customer_id : String
  email : String
  name : String
  deriving Repr, DecidableEq

/-- The `data` field of a Dodo webhook payload (flat official structure,
covering both subscription and payment events). -/
structure WebhookData where
  subscription_id : Option String := none
  customer : Option WebhookCustomer := none
  product_id : Option String := none
  payment_frequency_interval : Option String := none
  recurring_pre_tax_amount : Option Int := none
  currency : Option String := none
  next_billing_date : Option String := none
  payment_id : Option String := none
  total_amount : Option Int := none
  payment_method : Option String := none
  deriving Repr, DecidableEq

/-- A row of the `webhook_events` audit table. -/
structure WebhookEventRow where
  id : Nat
  event_type : String
  data : WebhookData
  processed : Bool
  created_at : Nat
  deriving Repr, DecidableEq

/-- The durable store: the four tables plus the id counter used for
store-assigned primary keys. -/
structure Store where
  customers : List Customer
  subscriptions : List Subscription
  payments : List Payment
  webhook_events : List WebhookEventRow
  nextId : Nat
  deriving Repr, DecidableEq

/-! ## Record store gateway (src/lib/supabase.ts)

`select ... .single()` with zero matching rows yields the PGRST116 error,
which the lookup helpers translate into `none`.  `insert` appends a row with
a fresh id; `update` rewrites every matching row, and the
`update_updated_at_column` trigger refreshes `updated_at` on every update. -/

/-- Gateway op `getCustomerByEmail`: first `customers` row with the given email. -/
def getCustomerByEmail (s : Store) (email : String) : Option Customer :=
  s.customers.find? (fun c => c.email == email)

/-- Gateway op `getCustomerByDodoId`: first `customers` row with the Dodo customer id. -/
def getCustomerByDodoId (s : Store) (dodoCustomerId : String) : Option Customer :=
  s.customers.find? (fun c => c.dodo_customer_id == dodoCustomerId)

/-- Gateway op `createCustomer`: insert a `customers` row with a fresh id. -/
def createCustomer (s : Store) (email name dodoCustomerId : String) : Store × Customer :=
  let row : Customer :=
    { id := s.nextId, email := email, name := name, dodo_customer_id := dodoCustomerId }
  ({ s with customers := s.customers ++ [row], nextId := s.nextId + 1 }, row)

/-- The column values supplied to a `subscriptions` insert or full-row
update (the `newSubscriptionData` object of `handleSubscriptionWebhook`). -/
structure SubscriptionFields where
  customer_id : Nat
  dodo_subscription_id : String
  product_id : String
  status : String
  billing_interval : String
  amount : Int
  currency : String
  next_billing_date : Option String
  deriving Repr, DecidableEq

/-- Gateway op `createSubscription`: insert a `subscriptions` row with a fresh id. -/
def createSubscription (s : Store) (f : SubscriptionFields) (now : Nat) :
    Store × Subscription :=
  let row : Subscription :=
    { id := s.nextId
      customer_id := f.customer_id
      dodo_subscription_id := f.dodo_subscription_id
      product_id := f.product_id
      status := f.status
      billing_interval := f.billing_interval
      amount := f.amount
      currency := f.currency
      next_billing_date := f.next_billing_date
      created_at := now
      updated_at := now }
  ({ s with subscriptions := s.subscriptions ++ [row], nextId := s.nextId + 1 }, row)

/-- Gateway op `getSubscriptionByDodoId`: first `subscriptions` row with the given
Dodo subscription id. -/
def getSubscriptionByDodoId (s : Store) (dodoSubscriptionId : String) : Option Subscription :=
  s.subscriptions.find? (fun r => r.dodo_subscription_id == dodoSubscriptionId)

/-- Gateway op `updateSubscription`: set `status` (and, via the store trigger,
`updated_at`) on every `subscriptions` row with the given Dodo subscription
id; `.single()` raises when no row matches. -/
def updateSubscription (s : Store) (dodoSubscriptionId status : String) (now : Nat) :
    Except String Store :=
  if s.subscriptions.any (fun r => r.dodo_subscription_id == dodoSubscriptionId) then
    .ok { s with
      subscriptions := s.subscriptions.map (fun r =>
        if r.dodo_subscription_id == dodoSubscriptionId then
          { r with status := status, updated_at := now }
        else r) }
  else
    .error "Failed to update subscription: no matching row"

/-- The in-place full-row rewrite of a pending placeholder row
(`.update(newSubscriptionData).eq('id', pendingId)`). -/
def updateSubscriptionRowById (s : Store) (rowId : Nat) (f : SubscriptionFields) (now : Nat) :
    Store :=
  { s with
    subscriptions := s.subscriptions.map (fun r =>
      if r.id == rowId then
        { r with
          customer_id := f.customer_id
          dodo_subscription_id := f.dodo_subscription_id
          product_id := f.product_id
          status := f.status
          billing_interval := f.billing_interval
          amount := f.amount
          currency := f.currency
          next_billing_date := f.next_billing_date
          updated_at := now }
      else r) }

/-- Gateway op `createPayment`: insert a `payments` row with a fresh id. -/
def createPayment (s : Store) (customerId : Nat)
    (dodoPaymentId : String) (amount : Int) (currency status : String)
    (paymentMethod : Option String) : Store × Payment :=
  let row : Payment :=
    { id := s.nextId
      customer_id := customerId
      dodo_payment_id := dodoPaymentId
      amount := amount
      currency := currency
      status := status
      payment_method := paymentMethod }
  ({ s with payments := s.payments ++ [row], nextId := s.nextId + 1 }, row)

/-- Gateway op `logWebhookEvent`: insert a `webhook_events` audit row with
`processed := false`. -/
def logWebhookEvent (s : Store) (eventType : String) (d : WebhookData) (now : Nat) :
    Store × WebhookEventRow :=
  let row : WebhookEventRow :=
    { id := s.nextId, event_type := eventType, data := d, processed := false, created_at := now }
  ({ s with webhook_events := s.webhook_events ++ [row], nextId := s.nextId + 1 }, row)

/-- Gateway op `markWebhookProcessed`: flip `processed` to `true` on the audit row with
the given id. -/
def markWebhookProcessed (s : Store) (eventId : Nat) : Store :=
  { s with
    webhook_events := s.webhook_events.map (fun r =>
      if r.id == eventId then { r with processed := true } else r) }

/-! ## Checkout URL (src/config.ts) -/

/-- Pure helper `createCheckoutUrl`: templating of the checkout link from the
configured base URL and the product id. -/
def createCheckoutUrl (baseUrl productId : String) : String :=
  baseUrl ++ "/buy/" ++ productId

/-! ## Customer flow (src/modules/customer.ts) -/

/-- Outcome of the black-box `createDodoCustomer` provider call. -/
inductive DodoCustomerResult where
  | ok (customer_id : String)
  | fail (msg : String)
  deriving Repr, DecidableEq

/-- Result of a reconciler flow: the durable store after the call, the
number of provider-creation calls attempted, and the outcome. -/
structure FlowResult (α : Type) where
  store : Store
  dodoCalls : Nat
  outcome : Except String α

/-- Signup flow `createCustomerFlow`: reject when a customer with the email
already exists, otherwise create the provider-side customer and then insert
the local row.  Every failure is wrapped with the
`Failed to create customer:` context. -/
def createCustomerFlow (s : Store) (dodo : DodoCustomerResult)
    (email name : String) : FlowResult Customer :=
  match getCustomerByEmail s email with
  | some _ =>
      { store := s, dodoCalls := 0
        outcome := .error ("Failed to create customer: Customer with email "
          ++ email ++ " already exists") }
  | none =>
      match dodo with
      | .fail m =>
          { store := s, dodoCalls := 1
            outcome := .error ("Failed to create customer: " ++ m) }
      | .ok cid =>
          if cid == "" then
            { store := s, dodoCalls := 1
              outcome := .error ("Failed to create customer: "
                ++ "Failed to create customer in Dodo Payments - no customer ID returned") }
          else
            let (s1, row) := createCustomer s email name cid
            { store := s1, dodoCalls := 1, outcome := .ok row }

/-! ## Subscription flow (src/modules/subscription.ts) -/

/-- The temporary placeholder subscription id
`temp_${Date.now()}_${randomSuffix}`. -/
def mkTempId (nowMs : Nat) (rand : String) : String :=
  "temp_" ++ toString nowMs ++ "_" ++ rand

/-- What `createSubscriptionFlow` returns on success. -/
structure SubscribeResult where
  subscription : Subscription
  payment_link : String
  dodo_subscription_id : String
  deriving Repr, DecidableEq

/-- Subscribe flow `createSubscriptionFlow`: look up the customer by email
(404 when absent), insert a `pending` placeholder subscription row with a
`temp_`-prefixed provider id and amount 0, and return the checkout URL.
No provider-side subscription is created at this stage. -/
def createSubscriptionFlow (s : Store) (baseUrl : String)
    (customerEmail productId billingInterval : String)
    (now : Nat) (rand : String) : FlowResult SubscribeResult :=
  match getCustomerByEmail s customerEmail with
  | none =>
      { store := s, dodoCalls := 0
        outcome := .error
          "Failed to create subscription: Customer not found. Please sign up first." }
  | some customer =>
      let tempSubscriptionId := mkTempId now rand
      let (s1, row) := createSubscription s
        { customer_id := customer.id
          dodo_subscription_id := tempSubscriptionId
          product_id := productId
          status := "pending"
          billing_interval := billingInterval
          amount := 0
          currency := "USD"
          next_billing_date := none } now
      { store := s1, dodoCalls := 0
        outcome := .ok
          { subscription := row
            payment_link := createCheckoutUrl baseUrl productId
            dodo_subscription_id := tempSubscriptionId } }

/-- The pending-placeholder lookup of `handleSubscriptionWebhook`:
rows matching `(customer_id, product_id, status = pending,
dodo_subscription_id LIKE temp-pattern)`. -/
def pendingCandidates (s : Store) (customerId : Nat) (productId : String) :
    List Subscription :=
  s.subscriptions.filter (fun r =>
    r.customer_id == customerId && r.product_id == productId
      && r.status == "pending" && matchesTempLike r.dodo_subscription_id)

/-- Models `ORDER BY created_at DESC LIMIT 1` over the pending candidates. -/
def latestByCreatedAt : List Subscription → Option Subscription
  | [] => none
  | r :: rs =>
      match latestByCreatedAt rs with
      | none => some r
      | some b => if b.created_at > r.created_at then some b else some r

/-- The `newSubscriptionData` object built from the webhook payload. -/
def webhookSubscriptionFields (customerId : Nat) (d : WebhookData) (status : String) :
    SubscriptionFields :=
  { customer_id := customerId
    dodo_subscription_id := d.subscription_id.getD ""
    product_id := jsOrStr d.product_id "unknown"
    status := status
    billing_interval := jsOrStr (d.payment_frequency_interval.map String.toLower) "month"
    amount := jsOrInt d.recurring_pre_tax_amount 0
    currency := jsOrStr d.currency "USD"
    next_billing_date := d.next_billing_date }

/-- Reconciler `handleSubscriptionWebhook`: skip events without a subscription id;
update the row matching the real Dodo id when one exists (status and
`updated_at` only); otherwise resolve the customer by Dodo customer id
(throwing when absent), merge into the most recent matching pending
placeholder row in place, or insert a fresh row when none matches. -/
def handleSubscriptionWebhook (s : Store) (d : WebhookData) (status : String)
    (now : Nat) : Except String Store :=
  if !(jsTruthyStr d.subscription_id) then
    .ok s
  else
    let subId := d.subscription_id.getD ""
    match getSubscriptionByDodoId s subId with
    | some _ => updateSubscription s subId status now
    | none =>
        match d.customer with
        | none => .ok s
        | some cust =>
            if cust.customer_id == "" then .ok s
            else
              match getCustomerByDodoId s cust.customer_id with
              | none => .error "Customer not found"
              | some c =>
                  let fields := webhookSubscriptionFields c.id d status
                  match latestByCreatedAt
                      (pendingCandidates s c.id (jsOrStr d.product_id "unknown")) with
                  | some pendingRow =>
                      .ok (updateSubscriptionRowById s pendingRow.id fields now)
                  | none =>
                      .ok (createSubscription s fields now).1

/-! ## Event intake (src/modules/webhook.ts) -/

/-- Intake wrapper `handleSubscriptionEvent`: skip when the
payload carries no customer, lazily insert the customer when the Dodo
customer id is unknown, then delegate to `handleSubscriptionWebhook`. -/
def handleSubscriptionEvent (s : Store) (d : WebhookData) (status : String)
    (now : Nat) : Except String Store :=
  match d.customer with
  | none => .ok s
  | some cust =>
      let s1 :=
        match getCustomerByDodoId s cust.customer_id with
        | some _ => s
        | none => (createCustomer s cust.email cust.name cust.customer_id).1
      handleSubscriptionWebhook s1 d status now

/-- The raw webhook body, abstracted to its parse outcome: either a valid
envelope `{type, data}` or malformed JSON. -/
inductive RawBody where
  | valid (eventType : String) (d : WebhookData)
  | malformed
  deriving Repr, DecidableEq

/-- What `processWebhook` leaves behind: the durable store after all writes
performed (also on failure paths) and the outcome returned to the caller. -/
structure WebhookOutcome where
  store : Store
  outcome : Except String String
  deriving Repr

/-- The `switch (eventType)` dispatch of `processWebhook`:
`subscription.active` / `subscription.cancelled` / `subscription.renewed`
go to the subscription handler (renewed with target `active`); every other
event type is logged but not processed. -/
def dispatchEvent (s : Store) (eventType : String) (d : WebhookData) (now : Nat) :
    Except String Store :=
  match eventType with
  | "subscription.active" => handleSubscriptionEvent s d "active" now
  | "subscription.cancelled" => handleSubscriptionEvent s d "cancelled" now
  | "subscription.renewed" => handleSubscriptionEvent s d "active" now
  | _ => .ok s

/-- Event intake `processWebhook`: verify the signature when a webhook key is configured
(rejecting before any parse or write), parse the envelope, insert the audit
row, dispatch subscription events to `handleSubscriptionEvent`, leave any
other event type unhandled, and finally mark the audit row processed.
`sigOk` is the verdict of the black-box signature verifier. -/
def processWebhook (s : Store) (raw : RawBody) (sigOk : Bool)
    (webhookKey : Option String) (now : Nat) : WebhookOutcome :=
  if jsTruthyStr webhookKey && !sigOk then
    { store := s, outcome := .error "Webhook processing failed: Webhook verification failed" }
  else
    match raw with
    | .malformed =>
        { store := s, outcome := .error "Webhook processing failed: invalid JSON" }
    | .valid eventType d =>
        let (s1, logged) := logWebhookEvent s eventType d now
        let step : Except String Store := dispatchEvent s1 eventType d now
        match step with
        | .error e =>
            { store := s1, outcome := .error ("Webhook processing failed: " ++ e) }
        | .ok s2 =>
            { store := markWebhookProcessed s2 logged.id, outcome := .ok eventType }

/-! ## Payment handler (supabase edge function webhook, `handlePaymentEvent`) -/

/-- JavaScript `o || null` for an optional string: `null` when absent or
empty. -/
def jsOrNull (o : Option String) : Option String :=
  if jsTruthyStr o then o else none

/-- Payment handler `handlePaymentEvent`: skip when the payload has no customer or no
payment id; find the customer by Dodo customer id and insert one `payments`
row, or log-and-skip when the customer is missing.  Never throws. -/
def handlePaymentEvent (s : Store) (d : WebhookData) (status : String) : Store :=
  match d.customer with
  | none => s
  | some cust =>
      if !(jsTruthyStr d.payment_id) then s
      else
        match getCustomerByDodoId s cust.customer_id with
        | none => s
        | some c =>
            (createPayment s c.id (d.payment_id.getD "")
              (jsOrInt d.total_amount 0) (jsOrStr d.currency "USD") status
              (jsOrNull d.payment_method)).1

/-! ## General helper lemmas -/

theorem map_id_of_eq {α} {l : List α} {f : α → α} (h : ∀ a ∈ l, f a = a) :
    l.map f = l := by
  induction l with
  | nil => rfl
  | cons a rest ih =>
      simp only [List.map_cons]
      rw [h a (by simp), ih (fun x hx => h x (by simp [hx]))]

theorem countP_map_congr {α} {l : List α} {f : α → α} {p : α → Bool}
    (h : ∀ a ∈ l, p (f a) = p a) : (l.map f).countP p = l.countP p := by
  induction l with
  | nil => rfl
  | cons a rest ih =>
      simp only [List.map_cons, List.countP_cons]
      rw [h a (by simp), ih (fun x hx => h x (by simp [hx]))]

theorem countP_map_to {α} (l : List α) (f : α → α) (p q : α → Bool)
    (h : ∀ a ∈ l, p (f a) = q a) : (l.map f).countP p = l.countP q := by
  induction l with
  | nil => rfl
  | cons a rest ih =>
      simp only [List.map_cons, List.countP_cons]
      rw [h a (by simp), ih (fun x hx => h x (by simp [hx]))]

theorem countP_beq_eq_count_map {α β} [DecidableEq β] (f : α → β) (b : β) (l : List α) :
    (l.countP fun a => f a == b) = (l.map f).count b := by
  induction l with
  | nil => rfl
  | cons a rest ih =>
      by_cases hab : f a = b
      · simp [List.countP_cons, List.count_cons, ih, hab]
      · simp [List.countP_cons, List.count_cons, ih, hab]

theorem occursIn_append {α} [DecidableEq α] (pat l₁ l₂ : List α)
    (h : occursIn pat l₂ = true) : occursIn pat (l₁ ++ l₂) = true := by
  induction l₁ with
  | nil => simpa using h
  | cons a rest ih =>
      show (pat.isPrefixOf (a :: (rest ++ l₂)) || occursIn pat (rest ++ l₂)) = true
      rw [ih, Bool.or_true]

theorem strContains_append (s t pat : String) (h : strContains t pat = true) :
    strContains (s ++ t) pat = true := by
  unfold strContains at h ⊢
  rw [String.data_append]
  exact occursIn_append _ _ _ h

theorem matchesTempLike_mkTempId (nowMs : Nat) (rand : String) :
    matchesTempLike (mkTempId nowMs rand) = true := by
  unfold mkTempId matchesTempLike
  rw [String.data_append, String.data_append, String.data_append]
  rfl

theorem latestByCreatedAt_mem {l : List Subscription} {x : Subscription}
    (h : latestByCreatedAt l = some x) : x ∈ l := by
  induction l generalizing x with
  | nil => simp [latestByCreatedAt] at h
  | cons a rest ih =>
      unfold latestByCreatedAt at h
      cases hrec : latestByCreatedAt rest with
      | none =>
          rw [hrec] at h
          have h2 : some a = some x := h
          cases h2
          exact List.mem_cons_self ..
      | some b =>
          rw [hrec] at h
          have h2 : (if b.created_at > a.created_at then some b else some a) = some x := h
          by_cases hgt : b.created_at > a.created_at
          · rw [if_pos hgt] at h2
            cases h2
            exact List.mem_cons_of_mem _ (ih hrec)
          · rw [if_neg hgt] at h2
            cases h2
            exact List.mem_cons_self ..

/-! ## HTTP status mapping (src/server.ts) -/

/-- Status code of `POST /api/signup` for a flow outcome: 201 on success,
409 when the error message contains `already exists`, 500 otherwise. -/
def signupStatus (outcome : Except String Customer) : Nat :=
  match outcome with
  | .ok _ => 201
  | .error msg => if strContains msg "already exists" then 409 else 500

/-- Status code of `POST /api/subscribe` for a flow outcome: 201 on success,
404 when the error message contains `not found`, 500 otherwise. -/
def subscribeStatus (outcome : Except String SubscribeResult) : Nat :=
  match outcome with
  | .ok _ => 201
  | .error msg => if strContains msg "not found" then 404 else 500

/-! ## Claim theorems -/

theorem dispatchEvent_unknown (s : Store) (t : String) (d : WebhookData) (now : Nat)
    (h1 : t ≠ "subscription.active") (h2 : t ≠ "subscription.cancelled")
    (h3 : t ≠ "subscription.renewed") :
    dispatchEvent s t d now = .ok s := by
  unfold dispatchEvent
  split
  · exact absurd rfl h1
  · exact absurd rfl h2
  · exact absurd rfl h3
  · rfl

/-- C6: when a signing key is configured and signature verification fails,
`processWebhook` rejects the delivery with a verification error and the
store is completely unchanged — no audit row is written, no payload is
parsed (the rejection is the same for malformed bodies), and no reconciler
runs. -/
theorem verification_failure_leaves_store_unchanged
    (s : Store) (raw : RawBody) (key : String) (now : Nat) (hkey : key ≠ "") :
    processWebhook s raw false (some key) now =
      { store := s
        outcome := .error "Webhook processing failed: Webhook verification failed" } := by
  simp [processWebhook, jsTruthyStr, hkey]

/-- Witness for C6 at a concrete store and key. -/
theorem verification_failure_leaves_store_unchanged_witness :
    ("whk_key" ≠ "") ∧
    processWebhook ⟨[], [], [], [], 0⟩ .malformed false (some "whk_key") 3 =
      { store := ⟨[], [], [], [], 0⟩
        outcome := .error "Webhook processing failed: Webhook verification failed" } :=
  ⟨by decide, verification_failure_leaves_store_unchanged _ _ _ _ (by decide)⟩

/-- C7: an event of unrecognized type (none of subscription.active /
subscription.cancelled / subscription.renewed) produces exactly one new
`webhook_events` audit row, marked `processed = true`, and mutates nothing
else: the customers, subscriptions and payments tables are unchanged. -/
theorem unknown_event_type_audit_only
    (s : Store) (t : String) (d : WebhookData) (sigOk : Bool) (key : Option String)
    (now : Nat)
    (hgate : (jsTruthyStr key && !sigOk) = false)
    (h1 : t ≠ "subscription.active") (h2 : t ≠ "subscription.cancelled")
    (h3 : t ≠ "subscription.renewed")
    (hids : ∀ r ∈ s.webhook_events, r.id ≠ s.nextId) :
    processWebhook s (.valid t d) sigOk key now =
      { store := { s with
          webhook_events := s.webhook_events ++
            [{ id := s.nextId, event_type := t, data := d, processed := true
               created_at := now }]
          nextId := s.nextId + 1 }
        outcome := .ok t } := by
  unfold processWebhook
  rw [hgate]
  simp only [Bool.false_eq_true, if_false, logWebhookEvent,
    dispatchEvent_unknown _ t d now h1 h2 h3, markWebhookProcessed]
  rw [List.map_append]
  rw [map_id_of_eq (fun r hr => by simp [Nat.ne_of_lt, hids r hr])]
  simp

/-- Witness for C7 at a concrete store and event type. -/
theorem unknown_event_type_audit_only_witness :
    ((jsTruthyStr none && !true) = false) ∧
    processWebhook ⟨[], [], [], [], 4⟩ (.valid "payment.failed" {}) true none 9 =
      { store := { customers := [], subscriptions := [], payments := []
                   webhook_events := [{ id := 4, event_type := "payment.failed"
                                        data := {}, processed := true, created_at := 9 }]
                   nextId := 5 }
        outcome := .ok "payment.failed" } :=
  ⟨by decide,
   unknown_event_type_audit_only ⟨[], [], [], [], 4⟩ "payment.failed" {} true none 9
     (by decide) (by decide) (by decide) (by decide) (by simp)⟩

/-- C9: subscribing with an email that has no Customer row fails with the
`Customer not found` error, mapped to 404 by the API layer, and the store —
in particular the subscriptions table — is unchanged: the failure happens
before any insert. -/
theorem subscribe_without_signup_is_404
    (s : Store) (baseUrl email productId billingInterval : String)
    (now : Nat) (rand : String)
    (h : getCustomerByEmail s email = none) :
    (createSubscriptionFlow s baseUrl email productId billingInterval now rand).store = s
    ∧ (createSubscriptionFlow s baseUrl email productId billingInterval now rand).outcome =
        .error "Failed to create subscription: Customer not found. Please sign up first."
    ∧ subscribeStatus
        (createSubscriptionFlow s baseUrl email productId billingInterval now rand).outcome
        = 404 := by
  unfold createSubscriptionFlow
  rw [h]
  exact ⟨rfl, rfl, rfl⟩

/-- Witness for C9 at a concrete store with no customer for the email. -/
theorem subscribe_without_signup_is_404_witness :
    (getCustomerByEmail ⟨[], [], [], [], 0⟩ "x@y.z" = none) ∧
    ((createSubscriptionFlow ⟨[], [], [], [], 0⟩ "https://base" "x@y.z" "prod_1" "month" 5 "r").store
        = ⟨[], [], [], [], 0⟩
      ∧ (createSubscriptionFlow ⟨[], [], [], [], 0⟩ "https://base" "x@y.z" "prod_1" "month" 5 "r").outcome =
          .error "Failed to create subscription: Customer not found. Please sign up first."
      ∧ subscribeStatus
          (createSubscriptionFlow ⟨[], [], [], [], 0⟩ "https://base" "x@y.z" "prod_1" "month" 5 "r").outcome
          = 404) :=
  ⟨by decide, subscribe_without_signup_is_404 _ _ _ _ _ _ _ (by decide)⟩

/-- C8: a second signup with an email that already has a Customer row fails
before any provider call (`dodoCalls = 0`), is mapped to a 409 conflict by
the API layer, and leaves the store unchanged, so exactly one Customer row
for that email remains. -/
theorem duplicate_signup_is_409
    (s : Store) (dodo : DodoCustomerResult) (email name : String) (c : Customer)
    (hdup : getCustomerByEmail s email = some c)
    (hone : s.customers.countP (fun x => x.email == email) = 1) :
    (createCustomerFlow s dodo email name).store = s
    ∧ (createCustomerFlow s dodo email name).dodoCalls = 0
    ∧ signupStatus (createCustomerFlow s dodo email name).outcome = 409
    ∧ (createCustomerFlow s dodo email name).store.customers.countP
        (fun x => x.email == email) = 1 := by
  unfold createCustomerFlow
  rw [hdup]
  refine ⟨rfl, rfl, ?_, hone⟩
  have hmsg : strContains
      (("Failed to create customer: Customer with email " ++ email) ++ " already exists")
      "already exists" = true :=
    strContains_append _ _ _ (by decide)
  simp [signupStatus, hmsg]

/-- Example customer for the C8 witness. -/
def c8Alice : Customer :=
  { id := 0, email := "a@b.c", name := "Alice", dodo_customer_id := "cus_1" }

/-- Example store for the C8 witness: one existing customer for the email. -/
def c8Store : Store := ⟨[c8Alice], [], [], [], 1⟩

/-- Witness for C8 at a concrete store holding one customer for the email. -/
theorem duplicate_signup_is_409_witness :
    (getCustomerByEmail c8Store "a@b.c" = some c8Alice) ∧
    ((createCustomerFlow c8Store (.ok "cus_2") "a@b.c" "Alice2").store = c8Store
      ∧ (createCustomerFlow c8Store (.ok "cus_2") "a@b.c" "Alice2").dodoCalls = 0
      ∧ signupStatus (createCustomerFlow c8Store (.ok "cus_2") "a@b.c" "Alice2").outcome = 409
      ∧ (createCustomerFlow c8Store (.ok "cus_2") "a@b.c" "Alice2").store.customers.countP
          (fun x => x.email == "a@b.c") = 1) :=
  ⟨by decide, duplicate_signup_is_409 c8Store (.ok "cus_2") "a@b.c" "Alice2" c8Alice
    (by decide) (by decide)⟩

/-- Existing-row branch of `handleSubscriptionWebhook`: a row holds the
event's Dodo id, so only its `status` (and `updated_at`) is rewritten. -/
theorem handleSubscriptionWebhook_found
    (s : Store) (d : WebhookData) (status : String) (now : Nat) (sid : String)
    (r : Subscription)
    (hsid : d.subscription_id = some sid) (hne : sid ≠ "")
    (hfound : getSubscriptionByDodoId s sid = some r) :
    handleSubscriptionWebhook s d status now =
      .ok { s with subscriptions := s.subscriptions.map (fun x =>
        if x.dodo_subscription_id == sid then { x with status := status, updated_at := now }
        else x) } := by
  have hfound2 : s.subscriptions.find? (fun x => x.dodo_subscription_id == sid) = some r :=
    hfound
  have hpred := List.find?_some hfound2
  have hany : s.subscriptions.any (fun x => x.dodo_subscription_id == sid) = true :=
    List.any_eq_true.mpr ⟨r, List.mem_of_find?_eq_some hfound2, hpred⟩
  unfold handleSubscriptionWebhook
  rw [hsid]
  have hbeq : (sid == "") = false := by simp [hne]
  simp only [jsTruthyStr, hbeq, Bool.not_false, Bool.not_true, Bool.false_eq_true,
    if_false, Option.getD_some]
  rw [hfound]
  simp [updateSubscription, hany]

/-- No-customer branch of `handleSubscriptionWebhook`: no row holds the
event's Dodo id and the payload has no customer — the event is skipped. -/
theorem handleSubscriptionWebhook_no_customer
    (s : Store) (d : WebhookData) (status : String) (now : Nat) (sid : String)
    (hsid : d.subscription_id = some sid) (hne : sid ≠ "")
    (hnone : getSubscriptionByDodoId s sid = none)
    (hcu : d.customer = none) :
    handleSubscriptionWebhook s d status now = .ok s := by
  unfold handleSubscriptionWebhook
  rw [hsid]
  have hbeq : (sid == "") = false := by simp [hne]
  simp only [jsTruthyStr, hbeq, Bool.not_false, Bool.not_true, Bool.false_eq_true,
    if_false, Option.getD_some]
  rw [hnone, hcu]

/-- Empty-customer-id branch of `handleSubscriptionWebhook`: the payload's
customer id is falsy — the event is skipped. -/
theorem handleSubscriptionWebhook_empty_customer_id
    (s : Store) (d : WebhookData) (status : String) (now : Nat) (sid : String)
    (cu : WebhookCustomer)
    (hsid : d.subscription_id = some sid) (hne : sid ≠ "")
    (hnone : getSubscriptionByDodoId s sid = none)
    (hcu : d.customer = some cu) (hcuid : cu.customer_id = "") :
    handleSubscriptionWebhook s d status now = .ok s := by
  unfold handleSubscriptionWebhook
  rw [hsid]
  have hbeq : (sid == "") = false := by simp [hne]
  simp only [jsTruthyStr, hbeq, Bool.not_false, Bool.not_true, Bool.false_eq_true,
    if_false, Option.getD_some]
  rw [hnone, hcu]
  simp [hcuid]

/-- Missing-customer branch of `handleSubscriptionWebhook`: the payload's
customer is unknown to the store — the handler throws. -/
theorem handleSubscriptionWebhook_customer_missing
    (s : Store) (d : WebhookData) (status : String) (now : Nat) (sid : String)
    (cu : WebhookCustomer)
    (hsid : d.subscription_id = some sid) (hne : sid ≠ "")
    (hnone : getSubscriptionByDodoId s sid = none)
    (hcu : d.customer = some cu) (hcuid : cu.customer_id ≠ "")
    (hc : getCustomerByDodoId s cu.customer_id = none) :
    handleSubscriptionWebhook s d status now = .error "Customer not found" := by
  unfold handleSubscriptionWebhook
  rw [hsid]
  have hbeq : (sid == "") = false := by simp [hne]
  simp only [jsTruthyStr, hbeq, Bool.not_false, Bool.not_true, Bool.false_eq_true,
    if_false, Option.getD_some]
  rw [hnone, hcu]
  have hbeq2 : (cu.customer_id == "") = false := by simp [hcuid]
  simp only [hbeq2, Bool.false_eq_true, if_false]
  rw [hc]

/-- Example store for the C5 counterexample: one customer and one
subscription row in `cancelled` status with the real Dodo id `sub_1`. -/
def c5Store : Store :=
  ⟨[{ id := 0, email := "a@b.c", name := "Alice", dodo_customer_id := "cus_1" }],
    [{ id := 1, customer_id := 0, dodo_subscription_id := "sub_1", product_id := "prod_1"
       status := "cancelled", billing_interval := "month", amount := 999, currency := "USD"
       next_billing_date := none, created_at := 0, updated_at := 0 }],
    [], [], 2⟩

/-- A `subscription.active` payload for the C5 counterexample, carrying the
same real Dodo subscription id `sub_1`. -/
def c5Event : WebhookData :=
  { subscription_id := some "sub_1"
    customer := some { customer_id := "cus_1", email := "a@b.c", name := "Alice" }
    product_id := some "prod_1" }

/-- C5 counterexample: the claim says no webhook event moves a `cancelled`
row to another status, but processing a `subscription.active` event whose
id matches the cancelled row rewrites its status to `active`. -/
theorem cancelled_row_reactivated_counterexample :
    (handleSubscriptionWebhook c5Store c5Event "active" 7).map
      (fun s => s.subscriptions.map Subscription.status) = .ok ["active"] := rfl

/-- C5 amended: the reconciliation step applies last-write-wins on
`status`: whenever a row matches the event's real Dodo subscription id, its
status is overwritten with the event's target status regardless of the
current one — in particular `cancelled` is not terminal. -/
theorem subscription_status_last_write_wins
    (s : Store) (d : WebhookData) (status : String) (now : Nat) (sid : String)
    (r : Subscription)
    (hsid : d.subscription_id = some sid) (hne : sid ≠ "")
    (hfound : getSubscriptionByDodoId s sid = some r) :
    handleSubscriptionWebhook s d status now =
      .ok { s with subscriptions := s.subscriptions.map (fun x =>
        if x.dodo_subscription_id == sid then { x with status := status, updated_at := now }
        else x) } :=
  handleSubscriptionWebhook_found s d status now sid r hsid hne hfound

/-- Witness for C5 amended at the counterexample store: the cancelled row
is rewritten to `active`. -/
theorem subscription_status_last_write_wins_witness :
    (c5Event.subscription_id = some "sub_1" ∧ "sub_1" ≠ ""
      ∧ getSubscriptionByDodoId c5Store "sub_1" = some
          { id := 1, customer_id := 0, dodo_subscription_id := "sub_1", product_id := "prod_1"
            status := "cancelled", billing_interval := "month", amount := 999, currency := "USD"
            next_billing_date := none, created_at := 0, updated_at := 0 }) ∧
    handleSubscriptionWebhook c5Store c5Event "active" 7 =
      .ok { c5Store with subscriptions := c5Store.subscriptions.map (fun x =>
        if x.dodo_subscription_id == "sub_1" then { x with status := "active", updated_at := 7 }
        else x) } :=
  ⟨⟨rfl, by decide, by decide⟩,
    subscription_status_last_write_wins c5Store c5Event "active" 7 "sub_1"
      { id := 1, customer_id := 0, dodo_subscription_id := "sub_1", product_id := "prod_1"
        status := "cancelled", billing_interval := "month", amount := 999, currency := "USD"
        next_billing_date := none, created_at := 0, updated_at := 0 }
      rfl (by decide) (by decide)⟩

/-- Example store for C3: one customer and one `active` subscription with
real Dodo id `sub_1`, amount 999 and next billing date 2025-01-01. -/
def c3Store : Store :=
  ⟨[{ id := 0, email := "a@b.c", name := "Alice", dodo_customer_id := "cus_1" }],
    [{ id := 1, customer_id := 0, dodo_subscription_id := "sub_1", product_id := "prod_1"
       status := "active", billing_interval := "month", amount := 999, currency := "USD"
       next_billing_date := some "2025-01-01", created_at := 0, updated_at := 0 }],
    [], [], 2⟩

/-- A `subscription.renewed` payload for C3 carrying refreshed billing
values: amount 1000 and next billing date 2025-02-01. -/
def c3Event : WebhookData :=
  { subscription_id := some "sub_1"
    customer := some { customer_id := "cus_1", email := "a@b.c", name := "Alice" }
    product_id := some "prod_1"
    payment_frequency_interval := some "Month"
    recurring_pre_tax_amount := some 1000
    currency := some "USD"
    next_billing_date := some "2025-02-01" }

/-- C3: evaluating the intake on a `subscription.renewed` event whose id
matches an existing row shows the code setting `status` to `active` but
keeping the stale billing fields (amount 999, next billing date
2025-01-01) instead of refreshing them to the event's values (1000,
2025-02-01) — contradicting both the spec and the code's own log message
`keeping active status and updating billing date`. -/
theorem renewed_event_keeps_stale_billing_fields :
    ((processWebhook c3Store (.valid "subscription.renewed" c3Event) true none 9).store.subscriptions.map
      (fun r => (r.status, r.amount, r.next_billing_date)))
      = [("active", (999 : Int), some "2025-01-01")] := rfl

/-- Example store for C4: a customer exists for the event's Dodo customer
id, and the payments table is empty. -/
def c4Store : Store :=
  ⟨[{ id := 0, email := "a@b.c", name := "Alice", dodo_customer_id := "cus_1" }],
    [], [], [], 1⟩

/-- A `payment.succeeded` payload for C4. -/
def c4Event : WebhookData :=
  { customer := some { customer_id := "cus_1", email := "a@b.c", name := "Alice" }
    payment_id := some "pay_1"
    total_amount := some 500
    currency := some "USD"
    payment_method := some "card" }

/-- C4 counterexample: `processWebhook` has no `payment.succeeded` case, so
processing such an event inserts no Payment row (the payments table stays
empty even though the customer exists); the event is only logged and marked
processed, refuting the claim that the intake inserts exactly one Payment
row. -/
theorem payment_succeeded_ignored_by_intake_counterexample :
    (processWebhook c4Store (.valid "payment.succeeded" c4Event) true none 7).store.payments = []
    ∧ (processWebhook c4Store (.valid "payment.succeeded" c4Event) true none 7).store.webhook_events.map
        (fun r => (r.event_type, r.processed)) = [("payment.succeeded", true)] :=
  ⟨rfl, rfl⟩

/-- C4 amended: the Payment-insert behaviour lives in the edge-function
handler `handlePaymentEvent`, not in `processWebhook`: given customer data
and a payment id on the event, it inserts exactly one Payment row for the
Customer resolved by the provider customer id, and skips (leaving the store
unchanged, without failing) when no such Customer exists. -/
theorem handlePaymentEvent_inserts_once_or_skips
    (s : Store) (d : WebhookData) (status : String) (cu : WebhookCustomer) (pid : String)
    (hcu : d.customer = some cu) (hpid : d.payment_id = some pid) (hne : pid ≠ "") :
    (∀ c : Customer, getCustomerByDodoId s cu.customer_id = some c →
        handlePaymentEvent s d status =
          { s with
            payments := s.payments ++
              [{ id := s.nextId, customer_id := c.id, dodo_payment_id := pid
                 amount := jsOrInt d.total_amount 0, currency := jsOrStr d.currency "USD"
                 status := status, payment_method := jsOrNull d.payment_method }]
            nextId := s.nextId + 1 })
    ∧ (getCustomerByDodoId s cu.customer_id = none → handlePaymentEvent s d status = s) := by
  constructor
  · intro c hc
    simp [handlePaymentEvent, hcu, hpid, jsTruthyStr, hne, hc, createPayment]
  · intro hc
    simp [handlePaymentEvent, hcu, hpid, jsTruthyStr, hne, hc]

/-- Witness for C4 amended: the customer resolves and exactly one payment
row is inserted. -/
theorem handlePaymentEvent_inserts_once_or_skips_witness :
    (c4Event.customer =
        some { customer_id := "cus_1", email := "a@b.c", name := "Alice" }
      ∧ c4Event.payment_id = some "pay_1" ∧ "pay_1" ≠ "") ∧
    handlePaymentEvent c4Store c4Event "succeeded" =
      { c4Store with
        payments := c4Store.payments ++
          [{ id := c4Store.nextId, customer_id := 0, dodo_payment_id := "pay_1"
             amount := jsOrInt c4Event.total_amount 0
             currency := jsOrStr c4Event.currency "USD"
             status := "succeeded", payment_method := jsOrNull c4Event.payment_method }]
        nextId := c4Store.nextId + 1 } :=
  ⟨⟨rfl, rfl, by decide⟩,
    (handlePaymentEvent_inserts_once_or_skips c4Store c4Event "succeeded"
        { customer_id := "cus_1", email := "a@b.c", name := "Alice" } "pay_1"
        rfl rfl (by decide)).1
      { id := 0, email := "a@b.c", name := "Alice", dodo_customer_id := "cus_1" }
      (by decide)⟩

/-- C10: a subscription event carrying no `product_id` substitutes the
literal `unknown` both in the pending-placeholder filter and in the row it
writes; with every existing row carrying a real (non-`unknown`) product id
and no row holding the event's real subscription id, the handler therefore
merges into no placeholder and instead appends a fresh row whose
`product_id` is `unknown`. -/
theorem missing_product_id_inserts_unknown_row
    (s : Store) (d : WebhookData) (status : String) (now : Nat)
    (cu : WebhookCustomer) (c : Customer) (sid : String)
    (hsid : d.subscription_id = some sid) (hne : sid ≠ "")
    (hprod : d.product_id = none)
    (hcu : d.customer = some cu) (hcuid : cu.customer_id ≠ "")
    (hc : getCustomerByDodoId s cu.customer_id = some c)
    (hnoreal : ∀ r ∈ s.subscriptions, r.dodo_subscription_id ≠ sid)
    (hrealprod : ∀ r ∈ s.subscriptions, r.product_id ≠ "unknown") :
    handleSubscriptionWebhook s d status now =
      .ok { s with
        subscriptions := s.subscriptions ++
          [{ id := s.nextId, customer_id := c.id, dodo_subscription_id := sid
             product_id := "unknown"
             status := status
             billing_interval := jsOrStr (d.payment_frequency_interval.map String.toLower) "month"
             amount := jsOrInt d.recurring_pre_tax_amount 0
             currency := jsOrStr d.currency "USD"
             next_billing_date := d.next_billing_date
             created_at := now, updated_at := now }]
        nextId := s.nextId + 1 } := by
  have hnone : getSubscriptionByDodoId s sid = none :=
    List.find?_eq_none.mpr (fun x hx => by simp [hnoreal x hx])
  have hfilter : pendingCandidates s c.id "unknown" = [] := by
    unfold pendingCandidates
    refine List.filter_eq_nil_iff.mpr (fun a ha => ?_)
    simp [hrealprod a ha]
  unfold handleSubscriptionWebhook
  rw [hsid]
  have hbeq : (sid == "") = false := by simp [hne]
  simp only [jsTruthyStr, hbeq, Bool.not_false, Bool.not_true, Bool.false_eq_true,
    if_false, Option.getD_some]
  rw [hnone, hcu]
  have hbeq2 : (cu.customer_id == "") = false := by simp [hcuid]
  simp only [hbeq2, Bool.false_eq_true, if_false]
  rw [hc]
  rw [hprod]
  simp only [jsOrStr]
  rw [hfilter]
  simp [latestByCreatedAt, webhookSubscriptionFields, createSubscription, jsOrStr, hprod, hsid]

/-- Example store for the C10 witness: one customer and one pending
placeholder row for the real product `prod_1`. -/
def c10Store : Store :=
  ⟨[{ id := 0, email := "a@b.c", name := "Alice", dodo_customer_id := "cus_1" }],
    [{ id := 1, customer_id := 0, dodo_subscription_id := "temp_5_r", product_id := "prod_1"
       status := "pending", billing_interval := "month", amount := 0, currency := "USD"
       next_billing_date := none, created_at := 5, updated_at := 5 }],
    [], [], 2⟩

/-- A `subscription.active` payload for the C10 witness with no
`product_id`. -/
def c10Event : WebhookData :=
  { subscription_id := some "sub_9"
    customer := some { customer_id := "cus_1", email := "a@b.c", name := "Alice" }
    payment_frequency_interval := some "Month"
    recurring_pre_tax_amount := some 700
    currency := some "USD"
    next_billing_date := some "2025-03-01" }

/-- Witness for C10: the pending placeholder for `prod_1` is not merged;
a fresh `unknown`-product row is appended. -/
theorem missing_product_id_inserts_unknown_row_witness :
    (c10Event.subscription_id = some "sub_9" ∧ "sub_9" ≠ ""
      ∧ c10Event.product_id = none
      ∧ getCustomerByDodoId c10Store "cus_1" =
          some { id := 0, email := "a@b.c", name := "Alice", dodo_customer_id := "cus_1" }) ∧
    handleSubscriptionWebhook c10Store c10Event "active" 9 =
      .ok { c10Store with
        subscriptions := c10Store.subscriptions ++
          [{ id := c10Store.nextId, customer_id := 0, dodo_subscription_id := "sub_9"
             product_id := "unknown"
             status := "active"
             billing_interval := jsOrStr (c10Event.payment_frequency_interval.map String.toLower) "month"
             amount := jsOrInt c10Event.recurring_pre_tax_amount 0
             currency := jsOrStr c10Event.currency "USD"
             next_billing_date := c10Event.next_billing_date
             created_at := 9, updated_at := 9 }]
        nextId := c10Store.nextId + 1 } :=
  ⟨⟨rfl, by decide, rfl, by decide⟩,
    missing_product_id_inserts_unknown_row c10Store c10Event "active" 9
      { customer_id := "cus_1", email := "a@b.c", name := "Alice" }
      { id := 0, email := "a@b.c", name := "Alice", dodo_customer_id := "cus_1" }
      "sub_9" rfl (by decide) rfl rfl (by decide) (by decide) (by decide) (by decide)⟩

/-- Merge branch of `handleSubscriptionWebhook`: no row matches the real
id, the customer resolves, and a pending placeholder is found — the
placeholder row is rewritten in place with the event-derived fields. -/
theorem handleSubscriptionWebhook_merge
    (s : Store) (d : WebhookData) (status : String) (now : Nat)
    (cu : WebhookCustomer) (c : Customer) (sid : String) (ph : Subscription)
    (hsid : d.subscription_id = some sid) (hne : sid ≠ "")
    (hnone : getSubscriptionByDodoId s sid = none)
    (hcu : d.customer = some cu) (hcuid : cu.customer_id ≠ "")
    (hc : getCustomerByDodoId s cu.customer_id = some c)
    (hpend : latestByCreatedAt (pendingCandidates s c.id (jsOrStr d.product_id "unknown")) =
      some ph) :
    handleSubscriptionWebhook s d status now =
      .ok (updateSubscriptionRowById s ph.id (webhookSubscriptionFields c.id d status) now) := by
  unfold handleSubscriptionWebhook
  rw [hsid]
  have hbeq : (sid == "") = false := by simp [hne]
  simp only [jsTruthyStr, hbeq, Bool.not_false, Bool.not_true, Bool.false_eq_true,
    if_false, Option.getD_some]
  rw [hnone, hcu]
  have hbeq2 : (cu.customer_id == "") = false := by simp [hcuid]
  simp only [hbeq2, Bool.false_eq_true, if_false]
  rw [hc]
  simp only [hpend]

/-- Insert branch of `handleSubscriptionWebhook`: no row matches the real
id, the customer resolves, and no pending placeholder matches — a fresh
row with the event-derived fields is inserted. -/
theorem handleSubscriptionWebhook_insert
    (s : Store) (d : WebhookData) (status : String) (now : Nat)
    (cu : WebhookCustomer) (c : Customer) (sid : String)
    (hsid : d.subscription_id = some sid) (hne : sid ≠ "")
    (hnone : getSubscriptionByDodoId s sid = none)
    (hcu : d.customer = some cu) (hcuid : cu.customer_id ≠ "")
    (hc : getCustomerByDodoId s cu.customer_id = some c)
    (hpend : latestByCreatedAt (pendingCandidates s c.id (jsOrStr d.product_id "unknown")) =
      none) :
    handleSubscriptionWebhook s d status now =
      .ok (createSubscription s (webhookSubscriptionFields c.id d status) now).1 := by
  unfold handleSubscriptionWebhook
  rw [hsid]
  have hbeq : (sid == "") = false := by simp [hne]
  simp only [jsTruthyStr, hbeq, Bool.not_false, Bool.not_true, Bool.false_eq_true,
    if_false, Option.getD_some]
  rw [hnone, hcu]
  have hbeq2 : (cu.customer_id == "") = false := by simp [hcuid]
  simp only [hbeq2, Bool.false_eq_true, if_false]
  rw [hc]
  simp only [hpend]

/-- The placeholder row inserted by `createSubscriptionFlow`. -/
def placeholderRow (s0 : Store) (customerId : Nat)
    (productId billingInterval : String) (nowMs : Nat) (rand : String) : Subscription :=
  { id := s0.nextId, customer_id := customerId
    dodo_subscription_id := mkTempId nowMs rand
    product_id := productId, status := "pending"
    billing_interval := billingInterval, amount := 0, currency := "USD"
    next_billing_date := none, created_at := nowMs, updated_at := nowMs }

/-- On success, `createSubscriptionFlow` appends exactly the pending
placeholder row. -/
theorem createSubscriptionFlow_store
    (s0 : Store) (C : Customer) (baseUrl email productId billingInterval : String)
    (nowMs : Nat) (rand : String)
    (hemail : getCustomerByEmail s0 email = some C) :
    (createSubscriptionFlow s0 baseUrl email productId billingInterval nowMs rand).store =
      { s0 with
        subscriptions := s0.subscriptions ++
          [placeholderRow s0 C.id productId billingInterval nowMs rand]
        nextId := s0.nextId + 1 } := by
  unfold createSubscriptionFlow
  rw [hemail]
  rfl

/-- The row left behind by the placeholder merge: the placeholder's id and
created_at, the event's real provider id, target status `active`, and the
event-derived billing fields. -/
def mergedRow (s0 : Store) (customerId : Nat) (realId productId : String)
    (d : WebhookData) (nowMs now2 : Nat) : Subscription :=
  { id := s0.nextId, customer_id := customerId, dodo_subscription_id := realId
    product_id := productId, status := "active"
    billing_interval := jsOrStr (d.payment_frequency_interval.map String.toLower) "month"
    amount := jsOrInt d.recurring_pre_tax_amount 0
    currency := jsOrStr d.currency "USD"
    next_billing_date := d.next_billing_date
    created_at := nowMs, updated_at := now2 }

/-- C1: starting from a store with no subscription row for customer C and
product P and no row with the real provider id, running the subscribe flow
(which inserts the `temp_`-prefixed pending placeholder) and then the
`subscription.active` webhook for C / P with the real provider id mutates
the placeholder row in place: the final store holds the original rows plus
exactly one row for (C, P) — with the placeholder's row id — whose
`dodo_subscription_id` is the real id and whose status is `active`; no
second row is inserted. -/
theorem placeholder_merge_yields_single_active_row
    (s0 : Store) (C : Customer) (baseUrl email productId billingInterval : String)
    (nowMs now2 : Nat) (rand : String) (d : WebhookData) (cu : WebhookCustomer)
    (realId : String)
    (hemail : getCustomerByEmail s0 email = some C)
    (hdodo : getCustomerByDodoId s0 cu.customer_id = some C)
    (hcu : d.customer = some cu) (hcuid : cu.customer_id ≠ "")
    (hsid : d.subscription_id = some realId) (hne : realId ≠ "")
    (hnotTemp : matchesTempLike realId = false)
    (hprodE : d.product_id = some productId) (hprodNe : productId ≠ "")
    (hnoCP : ∀ r ∈ s0.subscriptions, ¬(r.customer_id = C.id ∧ r.product_id = productId))
    (hnoReal : ∀ r ∈ s0.subscriptions, r.dodo_subscription_id ≠ realId)
    (hids : ∀ r ∈ s0.subscriptions, r.id ≠ s0.nextId) :
    handleSubscriptionWebhook
      (createSubscriptionFlow s0 baseUrl email productId billingInterval nowMs rand).store
      d "active" now2 =
      .ok { s0 with
        subscriptions := s0.subscriptions ++ [mergedRow s0 C.id realId productId d nowMs now2]
        nextId := s0.nextId + 1 }
    ∧ (s0.subscriptions ++ [mergedRow s0 C.id realId productId d nowMs now2]).countP
        (fun r => r.customer_id == C.id && r.product_id == productId) = 1
    ∧ (s0.subscriptions ++ [mergedRow s0 C.id realId productId d nowMs now2]).length
        = s0.subscriptions.length + 1 := by
  have htempne : mkTempId nowMs rand ≠ realId := by
    intro h
    have ht := matchesTempLike_mkTempId nowMs rand
    rw [h, hnotTemp] at ht
    exact Bool.false_ne_true ht
  have hcpfalse : ∀ r ∈ s0.subscriptions,
      (r.customer_id == C.id && r.product_id == productId) = false := by
    intro r hr
    by_cases h1 : r.customer_id = C.id
    · have h2 : r.product_id ≠ productId := fun h2 => hnoCP r hr ⟨h1, h2⟩
      simp [h1, h2]
    · simp [h1]
  refine ⟨?_, ?_, ?_⟩
  · rw [createSubscriptionFlow_store s0 C baseUrl email productId billingInterval nowMs rand
      hemail]
    have hnone : getSubscriptionByDodoId
        { s0 with
          subscriptions := s0.subscriptions ++
            [placeholderRow s0 C.id productId billingInterval nowMs rand]
          nextId := s0.nextId + 1 } realId = none := by
      refine List.find?_eq_none.mpr ?_
      intro x hx
      simp only [List.mem_append, List.mem_singleton] at hx
      rcases hx with hx | hx
      · simp [hnoReal x hx]
      · subst hx
        simp [placeholderRow, htempne]
    have hdodo1 : getCustomerByDodoId
        { s0 with
          subscriptions := s0.subscriptions ++
            [placeholderRow s0 C.id productId billingInterval nowMs rand]
          nextId := s0.nextId + 1 } cu.customer_id = some C := hdodo
    have hpc : pendingCandidates
        { s0 with
          subscriptions := s0.subscriptions ++
            [placeholderRow s0 C.id productId billingInterval nowMs rand]
          nextId := s0.nextId + 1 } C.id productId =
        [placeholderRow s0 C.id productId billingInterval nowMs rand] := by
      unfold pendingCandidates
      simp only [List.filter_append]
      rw [List.filter_eq_nil_iff.mpr (fun a ha hcon => by
        simp only [Bool.and_eq_true, beq_iff_eq] at hcon
        exact absurd (by tauto : a.customer_id = C.id ∧ a.product_id = productId)
          (hnoCP a ha))]
      simp [placeholderRow, matchesTempLike_mkTempId]
    have hpendL : latestByCreatedAt (pendingCandidates
        { s0 with
          subscriptions := s0.subscriptions ++
            [placeholderRow s0 C.id productId billingInterval nowMs rand]
          nextId := s0.nextId + 1 } C.id (jsOrStr d.product_id "unknown")) =
        some (placeholderRow s0 C.id productId billingInterval nowMs rand) := by
      rw [hprodE,
        show jsOrStr (some productId) "unknown" = productId from by simp [jsOrStr, hprodNe],
        hpc]
      rfl
    rw [handleSubscriptionWebhook_merge _ d "active" now2 cu C realId _
      hsid hne hnone hcu hcuid hdodo1 hpendL]
    refine congrArg Except.ok ?_
    simp only [updateSubscriptionRowById]
    refine congrArg (fun l => { s0 with subscriptions := l, nextId := s0.nextId + 1 }) ?_
    rw [List.map_append]
    congr 1
    · exact map_id_of_eq (fun r hr => by simp [placeholderRow, hids r hr])
    · simp [placeholderRow, webhookSubscriptionFields, mergedRow, hsid, hprodE, jsOrStr,
        hprodNe]
  · rw [List.countP_append]
    rw [List.countP_eq_zero.mpr (fun a ha => by simp [hcpfalse a ha])]
    simp [mergedRow]
  · simp

/-- Example customer for the C1 witness. -/
def c1Alice : Customer :=
  { id := 0, email := "a@b.c", name := "Alice", dodo_customer_id := "cus_1" }

/-- Example store for the C1 witness: one customer, no subscriptions. -/
def c1Store : Store := ⟨[c1Alice], [], [], [], 1⟩

/-- The `subscription.active` payload for the C1 witness, carrying the real
provider id `sub_9` for customer `cus_1` / product `prod_1`. -/
def c1Event : WebhookData :=
  { subscription_id := some "sub_9"
    customer := some { customer_id := "cus_1", email := "a@b.c", name := "Alice" }
    product_id := some "prod_1"
    payment_frequency_interval := some "Month"
    recurring_pre_tax_amount := some 999
    currency := some "USD"
    next_billing_date := some "2025-02-01" }

/-- Witness for C1: subscribe then activate at concrete inputs; the
placeholder is merged in place into a single active row. -/
theorem placeholder_merge_yields_single_active_row_witness :
    (getCustomerByEmail c1Store "a@b.c" = some c1Alice
      ∧ getCustomerByDodoId c1Store "cus_1" = some c1Alice
      ∧ matchesTempLike "sub_9" = false) ∧
    (handleSubscriptionWebhook
        (createSubscriptionFlow c1Store "https://base" "a@b.c" "prod_1" "month" 100 "r9").store
        c1Event "active" 200 =
        .ok { c1Store with
          subscriptions := c1Store.subscriptions ++
            [mergedRow c1Store c1Alice.id "sub_9" "prod_1" c1Event 100 200]
          nextId := c1Store.nextId + 1 }
      ∧ (c1Store.subscriptions ++
          [mergedRow c1Store c1Alice.id "sub_9" "prod_1" c1Event 100 200]).countP
          (fun r => r.customer_id == c1Alice.id && r.product_id == "prod_1") = 1
      ∧ (c1Store.subscriptions ++
          [mergedRow c1Store c1Alice.id "sub_9" "prod_1" c1Event 100 200]).length
          = c1Store.subscriptions.length + 1) :=
  ⟨⟨rfl, rfl, by decide⟩,
    placeholder_merge_yields_single_active_row c1Store c1Alice "https://base" "a@b.c"
      "prod_1" "month" 100 200 "r9" c1Event
      { customer_id := "cus_1", email := "a@b.c", name := "Alice" } "sub_9"
      rfl rfl rfl (by decide) rfl (by decide) (by decide) rfl (by decide)
      (by decide) (by decide) (by decide)⟩

/-- After an effective application of `handleSubscriptionWebhook` (one that
leaves some row holding the event's real Dodo id), exactly one row holds
that id, and every such row carries the event's target status and the
current `updated_at`. -/
theorem handle_webhook_post_state
    (s s1 : Store) (d : WebhookData) (status : String) (sid : String) (now : Nat)
    (hsid : d.subscription_id = some sid) (hne : sid ≠ "")
    (huniq : s.subscriptions.countP (fun r => r.dodo_subscription_id == sid) ≤ 1)
    (hnodup : (s.subscriptions.map Subscription.id).Nodup)
    (h1 : handleSubscriptionWebhook s d status now = .ok s1)
    (heff : s1.subscriptions.countP (fun r => r.dodo_subscription_id == sid) ≠ 0) :
    s1.subscriptions.countP (fun r => r.dodo_subscription_id == sid) = 1
    ∧ ∀ r ∈ s1.subscriptions, r.dodo_subscription_id = sid →
        r.status = status ∧ r.updated_at = now := by
  cases hfind : getSubscriptionByDodoId s sid with
  | some r0 =>
      have hfind2 : s.subscriptions.find? (fun x => x.dodo_subscription_id == sid) =
          some r0 := hfind
      have hpred := List.find?_some hfind2
      have hpos : 0 < s.subscriptions.countP (fun r => r.dodo_subscription_id == sid) :=
        List.countP_pos_iff.mpr ⟨r0, List.mem_of_find?_eq_some hfind2, hpred⟩
      rw [handleSubscriptionWebhook_found s d status now sid r0 hsid hne hfind] at h1
      injection h1 with h1
      subst h1
      constructor
      · refine Eq.trans
          (countP_map_to _ _ _ (fun r => r.dodo_subscription_id == sid) ?_) ?_
        · intro a ha
          by_cases hx : (a.dodo_subscription_id == sid) = true
          · simp only [hx, if_true]
          · simp only [hx, Bool.false_eq_true, if_false]
        · omega
      · intro r hr hd
        obtain ⟨a, ha, hfa⟩ := List.mem_map.mp hr
        by_cases hx : (a.dodo_subscription_id == sid) = true
        · rw [if_pos hx] at hfa
          subst hfa
          exact ⟨rfl, rfl⟩
        · rw [if_neg hx] at hfa
          subst hfa
          exact absurd hd (by simpa using hx)
  | none =>
      have hallfail : ∀ a ∈ s.subscriptions, (a.dodo_subscription_id == sid) = false := by
        intro a ha
        have := List.find?_eq_none.mp hfind a ha
        simpa using this
      have hzero : s.subscriptions.countP (fun r => r.dodo_subscription_id == sid) = 0 :=
        List.countP_eq_zero.mpr (fun a ha => by simp [hallfail a ha])
      cases hcu : d.customer with
      | none =>
          rw [handleSubscriptionWebhook_no_customer s d status now sid hsid hne hfind hcu]
            at h1
          injection h1 with h1
          subst h1
          exact absurd hzero heff
      | some cu =>
          by_cases hcuid : cu.customer_id = ""
          · rw [handleSubscriptionWebhook_empty_customer_id s d status now sid cu
              hsid hne hfind hcu hcuid] at h1
            injection h1 with h1
            subst h1
            exact absurd hzero heff
          · cases hc : getCustomerByDodoId s cu.customer_id with
            | none =>
                rw [handleSubscriptionWebhook_customer_missing s d status now sid cu
                  hsid hne hfind hcu hcuid hc] at h1
                cases h1
            | some c =>
                cases hlp : latestByCreatedAt
                    (pendingCandidates s c.id (jsOrStr d.product_id "unknown")) with
                | some ph =>
                    rw [handleSubscriptionWebhook_merge s d status now cu c sid ph
                      hsid hne hfind hcu hcuid hc hlp] at h1
                    injection h1 with h1
                    subst h1
                    have hphmem : ph ∈ s.subscriptions :=
                      List.mem_of_mem_filter (latestByCreatedAt_mem hlp)
                    constructor
                    · simp only [updateSubscriptionRowById]
                      refine Eq.trans
                        (countP_map_to _ _ _ (fun a => a.id == ph.id) ?_) ?_
                      · intro a ha
                        by_cases hid : (a.id == ph.id) = true
                        · simp [hid, webhookSubscriptionFields, hsid]
                        · simp [hid, hallfail a ha]
                      · rw [countP_beq_eq_count_map Subscription.id ph.id s.subscriptions]
                        exact List.count_eq_one_of_mem hnodup
                          (List.mem_map_of_mem Subscription.id hphmem)
                    · intro r hr hd
                      simp only [updateSubscriptionRowById] at hr
                      obtain ⟨a, ha, hfa⟩ := List.mem_map.mp hr
                      by_cases hid : (a.id == ph.id) = true
                      · rw [if_pos hid] at hfa
                        subst hfa
                        simp [webhookSubscriptionFields]
                      · rw [if_neg hid] at hfa
                        subst hfa
                        exact absurd hd (by simpa using hallfail a ha)
                | none =>
                    rw [handleSubscriptionWebhook_insert s d status now cu c sid
                      hsid hne hfind hcu hcuid hc hlp] at h1
                    injection h1 with h1
                    subst h1
                    constructor
                    · simp only [createSubscription, List.countP_append]
                      rw [hzero]
                      simp [webhookSubscriptionFields, hsid]
                    · intro r hr
                      simp only [createSubscription, List.mem_append,
                        List.mem_singleton] at hr
                      rcases hr with hr | hr
                      · intro hd
                        exact absurd hd (by simpa using hallfail r hr)
                      · subst hr
                        intro hd
                        simp [webhookSubscriptionFields]

/-- C2: applying the same `subscription.active` event a second time is the
identity on the store — the second application finds the row by its real
Dodo subscription id and re-applies the same status, creating no second row
and changing no field value — and after both applications exactly one row
holds the event's id, in `active` status.  (`heff` states that the first
application was effective: some row holds the real id afterwards.) -/
theorem subscription_active_webhook_idempotent
    (s s1 : Store) (d : WebhookData) (sid : String) (now : Nat)
    (hsid : d.subscription_id = some sid) (hne : sid ≠ "")
    (huniq : s.subscriptions.countP (fun r => r.dodo_subscription_id == sid) ≤ 1)
    (hnodup : (s.subscriptions.map Subscription.id).Nodup)
    (h1 : handleSubscriptionWebhook s d "active" now = .ok s1)
    (heff : s1.subscriptions.countP (fun r => r.dodo_subscription_id == sid) ≠ 0) :
    handleSubscriptionWebhook s1 d "active" now = .ok s1
    ∧ s1.subscriptions.countP (fun r => r.dodo_subscription_id == sid) = 1
    ∧ ∀ r ∈ s1.subscriptions, r.dodo_subscription_id = sid → r.status = "active" := by
  obtain ⟨hcount, hfields⟩ :=
    handle_webhook_post_state s s1 d "active" sid now hsid hne huniq hnodup h1 heff
  have hex : ∃ x ∈ s1.subscriptions, (x.dodo_subscription_id == sid) = true :=
    List.countP_pos_iff.mp (by omega)
  obtain ⟨r2, hr2mem, hr2⟩ := hex
  have hsome : (s1.subscriptions.find? (fun x => x.dodo_subscription_id == sid)).isSome :=
    List.find?_isSome.mpr ⟨r2, hr2mem, hr2⟩
  obtain ⟨rf, hrf⟩ := Option.isSome_iff_exists.mp hsome
  have hrf2 : getSubscriptionByDodoId s1 sid = some rf := hrf
  refine ⟨?_, hcount, fun r hr hd => (hfields r hr hd).1⟩
  rw [handleSubscriptionWebhook_found s1 d "active" now sid rf hsid hne hrf2]
  refine congrArg Except.ok ?_
  have hmap : s1.subscriptions.map (fun x =>
      if x.dodo_subscription_id == sid then { x with status := "active", updated_at := now }
      else x) = s1.subscriptions := by
    refine map_id_of_eq (fun x hx => ?_)
    by_cases hxd : (x.dodo_subscription_id == sid) = true
    · rw [if_pos hxd]
      obtain ⟨hst, hupd⟩ := hfields x hx (by simpa using hxd)
      cases x
      simp_all
    · rw [if_neg hxd]
  rw [hmap]

/-- Example store for the C2 witness: one customer, no subscriptions yet. -/
def c2Store : Store :=
  ⟨[{ id := 0, email := "a@b.c", name := "Alice", dodo_customer_id := "cus_1" }],
    [], [], [], 1⟩

/-- The `subscription.active` payload for the C2 witness (no billing
interval on the payload, so the `month` default applies). -/
def c2Event : WebhookData :=
  { subscription_id := some "sub_9"
    customer := some { customer_id := "cus_1", email := "a@b.c", name := "Alice" }
    product_id := some "prod_1"
    recurring_pre_tax_amount := some 999
    currency := some "USD"
    next_billing_date := some "2025-02-01" }

/-- The store after the first application of the C2 event: one freshly
inserted active row with the real id. -/
def c2After : Store :=
  ⟨[{ id := 0, email := "a@b.c", name := "Alice", dodo_customer_id := "cus_1" }],
    [{ id := 1, customer_id := 0, dodo_subscription_id := "sub_9", product_id := "prod_1"
       status := "active", billing_interval := "month", amount := 999, currency := "USD"
       next_billing_date := some "2025-02-01", created_at := 5, updated_at := 5 }],
    [], [], 2⟩

/-- Witness for C2 at concrete inputs: the second application is the
identity. -/
theorem subscription_active_webhook_idempotent_witness :
    (c2Event.subscription_id = some "sub_9" ∧ "sub_9" ≠ ""
      ∧ c2Store.subscriptions.countP (fun r => r.dodo_subscription_id == "sub_9") ≤ 1
      ∧ (c2Store.subscriptions.map Subscription.id).Nodup
      ∧ handleSubscriptionWebhook c2Store c2Event "active" 5 = .ok c2After
      ∧ c2After.subscriptions.countP (fun r => r.dodo_subscription_id == "sub_9") ≠ 0) ∧
    (handleSubscriptionWebhook c2After c2Event "active" 5 = .ok c2After
      ∧ c2After.subscriptions.countP (fun r => r.dodo_subscription_id == "sub_9") = 1
      ∧ ∀ r ∈ c2After.subscriptions, r.dodo_subscription_id = "sub_9" →
          r.status = "active") :=
  ⟨⟨rfl, by decide, by decide, by decide, by rfl, by decide⟩,
    subscription_active_webhook_idempotent c2Store c2After c2Event "sub_9" 5
      rfl (by decide) (by decide) (by decide) (by rfl) (by decide)⟩

end DodoSupabase
